import Mathlib

/-!
Verification of the Catkuro cat diet calculator (`src/catv1.py`).

The program is a single-file Streamlit application. Its core is a chain of
deterministic arithmetic: resting energy requirement (RER), an activity
multiplier, daily energy requirement (DER), an intake analysis, a feeding
plan, and a fixed-layout report image. Python floats are modelled exactly:
rational arithmetic is embedded over `ℚ`, and the single real power
`70 * weight ** 0.75` over `ℝ` with the real power function. A Python
`return None` on invalid input is modelled as `Option.none`; Streamlit
session state is modelled as an explicit record passed through step
functions mirroring the button handlers of `main`.
-/

/-- The three intake classifications printed by `main` (tab 2): over target
when the calorie difference exceeds 5 kcal, under target below -5 kcal,
otherwise on target. -/
inductive Classification : Type
  | overTarget : Classification
  | underTarget : Classification
  | onTarget : Classification
deriving DecidableEq

/-- Classification of a calorie difference, from `main` (src/catv1.py lines
264-272): `if calorie_difference > 5` warn over, `elif calorie_difference < -5`
warn under, `else` on target. -/
def classify {α : Type} [LinearOrderedField α] (calorie_difference : α) : Classification :=
  if calorie_difference > 5 then Classification.overTarget
  else if calorie_difference < -5 then Classification.underTarget
  else Classification.onTarget

/-- `calculate_rer` (src/catv1.py lines 8-18): if `weight_kg <= 0` an error is
displayed and `None` returned (modelled as `none`); otherwise
`70 * (weight_kg ** 0.75)`. -/
noncomputable def calculate_rer (weight_kg : ℝ) : Option ℝ :=
  if weight_kg ≤ 0 then none
  else some (70 * weight_kg ^ (0.75 : ℝ))

/-- `get_activity_multiplier` (src/catv1.py lines 20-56), translated
branch-for-branch: pregnant and lactating checks first, then the age
brackets, with the BCS adjustment overwriting the base value inside the
adult and senior brackets. Ages are total months (an integer in the app),
BCS an integer; the returned float is one of a fixed set of rationals. -/
def get_activity_multiplier (age_months : ℤ) (is_neutered : Bool) (bcs : ℤ)
    (is_pregnant : Bool) (is_lactating : Bool) : ℚ :=
  if is_pregnant then 2.0
  else if is_lactating then 3.0
  else if age_months < 4 then 3.0
  else if 4 ≤ age_months ∧ age_months ≤ 12 then 2.0
  else if 12 < age_months ∧ age_months < 84 then
    if is_neutered then
      if bcs > 5 then 0.8 else if bcs < 4 then 1.6 else 1.2
    else
      if bcs > 5 then 1.0 else if bcs < 4 then 1.8 else 1.4
  else
    if bcs > 5 then 0.8 else if bcs < 4 then 1.2 else 1.0

/-- Modelled from the spec's decision table for the activity multiplier
(spec section 4.1), written with the spec's inclusive bounds: pregnant 2.0
overrides everything; lactating 3.0; age < 4 months 3.0; 4-12 months 2.0;
13-83 months the adult values keyed on neutered status and BCS; 84 months
and up the senior values. Used as the refinement target for the source
function `get_activity_multiplier`. -/
def activityMultiplierSpec (age_months : ℤ) (is_neutered : Bool) (bcs : ℤ)
    (is_pregnant : Bool) (is_lactating : Bool) : ℚ :=
  if is_pregnant then 2.0
  else if is_lactating then 3.0
  else if age_months < 4 then 3.0
  else if 4 ≤ age_months ∧ age_months ≤ 12 then 2.0
  else if 13 ≤ age_months ∧ age_months ≤ 83 then
    if is_neutered then
      if 5 < bcs then 0.8 else if bcs < 4 then 1.6 else 1.2
    else
      if 5 < bcs then 1.0 else if bcs < 4 then 1.8 else 1.4
  else
    if 5 < bcs then 0.8 else if bcs < 4 then 1.2 else 1.0

/-- The intake analysis record stored by `main` in
`st.session_state.intake_analysis` (src/catv1.py lines 246-250), restricted
to its numeric fields. -/
structure IntakeResult (α : Type) : Type where
  dry_food_kcal : α
  wet_food_kcal : α
  total_intake : α
  calorie_difference : α
deriving DecidableEq

/-- The intake computation of `main` (src/catv1.py lines 238-250):
`dry_food_calories = (dry_food_grams / 1000.0) * dry_food_kcal_per_1000g`,
`wet_food_calories = (wet_food_grams / 100.0) * wet_food_kcal_per_100g`,
their sum, and the difference against the DER. -/
def analyzeIntake {α : Type} [LinearOrderedField α]
    (der dry_food_grams dry_food_kcal_per_1000g wet_food_grams wet_food_kcal_per_100g : α) :
    IntakeResult α :=
  let dry_food_calories := dry_food_grams / 1000 * dry_food_kcal_per_1000g
  let wet_food_calories := wet_food_grams / 100 * wet_food_kcal_per_100g
  let total_intake := dry_food_calories + wet_food_calories
  { dry_food_kcal := dry_food_calories
    wet_food_kcal := wet_food_calories
    total_intake := total_intake
    calorie_difference := total_intake - der }

/-- The feeding plan record stored by `main` in
`st.session_state.feeding_plan` (src/catv1.py line 303). -/
structure FeedingPlan (α : Type) : Type where
  wet_food_percentage : ℤ
  required_dry_grams : α
  required_wet_grams : α
deriving DecidableEq

/-- The feeding-plan computation of `main` (src/catv1.py lines 294-300):
target calories split by the wet percentage, then grams from the caloric
densities, with an explicit guard returning 0 grams when a density is not
positive. -/
def planFeeding {α : Type} [LinearOrderedField α]
    (der : α) (wet_food_percentage : ℤ)
    (dry_food_kcal_per_1000g wet_food_kcal_per_100g : α) : FeedingPlan α :=
  let target_wet_calories := der * ((wet_food_percentage : α) / 100)
  let target_dry_calories := der * (((100 - wet_food_percentage : ℤ) : α) / 100)
  { wet_food_percentage := wet_food_percentage
    required_dry_grams :=
      if dry_food_kcal_per_1000g > 0 then
        target_dry_calories / dry_food_kcal_per_1000g * 1000
      else 0
    required_wet_grams :=
      if wet_food_kcal_per_100g > 0 then
        target_wet_calories / wet_food_kcal_per_100g * 100
      else 0 }

/-- The energy record stored by `main` in `st.session_state.der_info`
(src/catv1.py lines 192-194): rer, multiplier, der and the water intake
recommendation set to der. -/
structure EnergyResult : Type where
  rer : ℝ
  multiplier : ℝ
  der : ℝ
  water_intake : ℝ

/-- The Streamlit session state slots used by `main`: `st.session_state.der`,
`.der_info`, `.intake_analysis` and `.feeding_plan`. A missing key is
modelled as `none`. -/
structure SessionState : Type where
  der : Option ℝ
  der_info : Option EnergyResult
  intake_analysis : Option (IntakeResult ℝ)
  feeding_plan : Option (FeedingPlan ℝ)

/-- The tab-1 button handler of `main` (src/catv1.py lines 172-197): reject
`age <= 0` with an error and no state change; call `calculate_rer` and stop
on `None`; otherwise store der and der_info (water intake equal to der) and
delete any stored intake analysis and feeding plan. -/
noncomputable def calcDerStep (s : SessionState) (weight : ℝ) (age_months : ℤ)
    (is_neutered : Bool) (bcs : ℤ) (is_pregnant : Bool) (is_lactating : Bool) :
    SessionState :=
  if age_months ≤ 0 then s
  else
    match calculate_rer weight with
    | none => s
    | some rer =>
      let multiplier : ℝ :=
        ((get_activity_multiplier age_months is_neutered bcs is_pregnant is_lactating : ℚ) : ℝ)
      let der := rer * multiplier
      { der := some der
        der_info := some ⟨rer, multiplier, der, der⟩
        intake_analysis := none
        feeding_plan := none }

/-- The tab-2 button handler of `main` (src/catv1.py lines 232-250): when no
DER is in the session state, display an error and `st.stop()` with nothing
computed or stored; otherwise store the intake analysis. -/
noncomputable def analyzeIntakeStep (s : SessionState)
    (dry_food_grams dry_food_kcal_per_1000g wet_food_grams wet_food_kcal_per_100g : ℝ) :
    SessionState :=
  match s.der with
  | none => s
  | some der =>
    let r := analyzeIntake der dry_food_grams dry_food_kcal_per_1000g
      wet_food_grams wet_food_kcal_per_100g
    { s with intake_analysis := some r }

/-- The tab-3 flow of `main` (src/catv1.py lines 280-303): when no DER is in
the session state only a warning is shown; when both caloric densities are
zero only a warning is shown; otherwise the plan is computed and stored. -/
noncomputable def planFeedingStep (s : SessionState) (wet_food_percentage : ℤ)
    (dry_food_kcal_per_1000g wet_food_kcal_per_100g : ℝ) : SessionState :=
  match s.der with
  | none => s
  | some der =>
    if dry_food_kcal_per_1000g = 0 ∧ wet_food_kcal_per_100g = 0 then s
    else
      let r := planFeeding der wet_food_percentage
        dry_food_kcal_per_1000g wet_food_kcal_per_100g
      { s with feeding_plan := some r }

/-- The sequence of text-draw cursor positions produced by
`generate_diet_report_image` (src/catv1.py lines 79-123) on the fixed
800x800 canvas: title, the always-present profile and daily-intake
sections, the intake-analysis and feeding-plan sections only when their
data is present (the vertical cursor accumulates across drawn sections
only), and the footer lines at the bottom. The pixel raster and the glyphs
drawn by the Pillow library are outside the repository; the layout the
repository controls is this position sequence. -/
def reportPositions (hasIntake : Bool) (hasPlan : Bool) : List (ℤ × ℤ) :=
  let y1 : ℤ := 380
  let intakeCmds : List (ℤ × ℤ) :=
    if hasIntake then [(50, y1 + 80), (80, y1 + 130), (80, y1 + 170)] else []
  let y2 : ℤ := if hasIntake then y1 + 170 else y1
  let planCmds : List (ℤ × ℤ) :=
    if hasPlan then [(50, y2 + 80), (80, y2 + 120), (80, y2 + 150), (80, y2 + 190)] else []
  [(400, 50), (50, 120), (80, 170), (400, 170), (80, 210), (400, 210),
    (50, 290), (80, 340), (80, 380)] ++ intakeCmds ++ planCmds ++ [(50, 760), (750, 760)]

/-- `generate_diet_report_image` (src/catv1.py lines 58-127): loading the
font `font.ttf` may raise `IOError`, in which case the function returns
`None` and draws nothing; otherwise it draws the report and returns the
encoded PNG bytes. The font-load outcome is an input flag, and the encoded
image is represented by the draw-position sequence the code lays out. -/
def generate_diet_report_image (fontLoads : Bool) (hasIntake : Bool) (hasPlan : Bool) :
    Option (List (ℤ × ℤ)) :=
  if fontLoads then some (reportPositions hasIntake hasPlan) else none

/-- The tab-4 download flow of `main` (src/catv1.py lines 320-382): no
report without a stored `der_info`; the caller checks that `font.ttf`
exists before calling the renderer and shows only an error when it is
missing; otherwise the renderer runs and a download artifact appears only
for a truthy (non-empty) byte result. -/
def downloadStep (fontExists : Bool) (fontLoads : Bool) (s : SessionState) :
    Option (List (ℤ × ℤ)) :=
  match s.der_info with
  | none => none
  | some _ =>
    if fontExists then
      match generate_diet_report_image fontLoads s.intake_analysis.isSome
        s.feeding_plan.isSome with
      | none => none
      | some img => if img.isEmpty then none else some img
    else none

/-- Claim C1: for every input, `get_activity_multiplier` agrees with the
spec's decision table evaluated in precedence order — pregnant 2.0 first
(even when lactating), lactating 3.0, then the age brackets < 4, 4-12,
13-83 (adult, keyed on neutered status with BCS adjustments), and 84 and
up (senior); a BCS of 4 or 5 never changes a bracket's base value. -/
theorem activity_multiplier_matches_spec_table (age_months : ℤ) (is_neutered : Bool)
    (bcs : ℤ) (is_pregnant : Bool) (is_lactating : Bool) :
    get_activity_multiplier age_months is_neutered bcs is_pregnant is_lactating =
      activityMultiplierSpec age_months is_neutered bcs is_pregnant is_lactating := by
  unfold get_activity_multiplier activityMultiplierSpec
  split_ifs <;> first | rfl | omega

/-- Claim C2: `calculate_rer` returns exactly `70 * w ^ (3/4)` (real
exponent) for every positive weight, and returns no numeric result for
every weight that is zero or negative. -/
theorem calculate_rer_spec (w : ℝ) :
    (0 < w → calculate_rer w = some (70 * w ^ ((3 : ℝ) / 4))) ∧
    (w ≤ 0 → calculate_rer w = none) := by
  constructor
  · intro hw
    rw [calculate_rer, if_neg (not_le.mpr hw)]
    norm_num
  · intro hw
    rw [calculate_rer, if_pos hw]

/-- Witness for C2 at weight 1 (positive branch) and weight 0 (invalid
branch). -/
theorem calculate_rer_spec_witness :
    calculate_rer 1 = some (70 * (1 : ℝ) ^ ((3 : ℝ) / 4)) ∧ calculate_rer 0 = none :=
  ⟨(calculate_rer_spec 1).1 (by norm_num), (calculate_rer_spec 0).2 le_rfl⟩

/-- Claim C3: the classification is over target exactly when the calorie
difference exceeds 5, under target exactly when it is below -5, and on
target otherwise; in particular differences of exactly 5 and -5 are on
target. -/
theorem classification_policy (d : ℚ) :
    (classify d = Classification.overTarget ↔ 5 < d) ∧
    (classify d = Classification.underTarget ↔ d < -5) ∧
    (classify d = Classification.onTarget ↔ -5 ≤ d ∧ d ≤ 5) ∧
    classify (5 : ℚ) = Classification.onTarget ∧
    classify (-5 : ℚ) = Classification.onTarget := by
  have hov : ∀ x : ℚ, classify x = Classification.overTarget ↔ 5 < x := by
    intro x
    constructor
    · intro h
      unfold classify at h
      split_ifs at h with h1 h2
      · exact h1
    · intro h
      unfold classify
      rw [if_pos h]
  have hun : ∀ x : ℚ, classify x = Classification.underTarget ↔ x < -5 := by
    intro x
    constructor
    · intro h
      unfold classify at h
      split_ifs at h with h1 h2
      · exact h2
    · intro h
      unfold classify
      rw [if_neg (by linarith), if_pos h]
  have hon : ∀ x : ℚ, classify x = Classification.onTarget ↔ -5 ≤ x ∧ x ≤ 5 := by
    intro x
    constructor
    · intro h
      unfold classify at h
      split_ifs at h with h1 h2
      · exact ⟨by linarith, by linarith⟩
    · rintro ⟨ha, hb⟩
      unfold classify
      rw [if_neg (by linarith), if_neg (by linarith)]
  exact ⟨hov d, hun d, hon d, (hon 5).mpr (by norm_num), (hon (-5)).mpr (by norm_num)⟩

/-- Claim C4: for every der, wet percentage in [0,100] and nonnegative
densities, the plan's target calories follow the der split and the gram
amounts divide by the density and rescale when the density is positive,
and are 0 (with no division error) when it is zero. -/
theorem planFeeding_formulas (der : ℚ) (p : ℤ) (dk wk : ℚ)
    (hp0 : 0 ≤ p) (hp1 : p ≤ 100) (hdk : 0 ≤ dk) (hwk : 0 ≤ wk) :
    (planFeeding der p dk wk).required_dry_grams =
      (if 0 < dk then der * ((100 - (p : ℚ)) / 100) / dk * 1000 else 0) ∧
    (planFeeding der p dk wk).required_wet_grams =
      (if 0 < wk then der * ((p : ℚ) / 100) / wk * 100 else 0) ∧
    (planFeeding der p 0 wk).required_dry_grams = 0 ∧
    (planFeeding der p dk 0).required_wet_grams = 0 := by
  refine ⟨?_, ?_, ?_, ?_⟩
  · show (if dk > 0 then der * (((100 - p : ℤ) : ℚ) / 100) / dk * 1000 else 0) = _
    split_ifs with h
    · push_cast
      ring
    · rfl
  · rfl
  · simp [planFeeding]
  · simp [planFeeding]

/-- Witness for C4 at the spec's example: der 300, wet percentage 50,
dry density 4000 kcal/1000 g, wet density 100 kcal/100 g. -/
theorem planFeeding_formulas_witness :
    (0 : ℤ) ≤ 50 ∧ (50 : ℤ) ≤ 100 ∧ (0 : ℚ) ≤ 4000 ∧ (0 : ℚ) ≤ 100 ∧
    ((planFeeding (300 : ℚ) 50 4000 100).required_dry_grams =
        (if (0 : ℚ) < 4000 then 300 * ((100 - ((50 : ℤ) : ℚ)) / 100) / 4000 * 1000 else 0) ∧
      (planFeeding (300 : ℚ) 50 4000 100).required_wet_grams =
        (if (0 : ℚ) < 100 then 300 * (((50 : ℤ) : ℚ) / 100) / 100 * 100 else 0) ∧
      (planFeeding (300 : ℚ) 50 0 100).required_dry_grams = 0 ∧
      (planFeeding (300 : ℚ) 50 4000 0).required_wet_grams = 0) ∧
    (planFeeding (300 : ℚ) 50 4000 100).required_dry_grams = 37.5 ∧
    (planFeeding (300 : ℚ) 50 4000 100).required_wet_grams = 150 :=
  ⟨by norm_num, by norm_num, by norm_num, by norm_num,
    planFeeding_formulas 300 50 4000 100 (by norm_num) (by norm_num) (by norm_num)
      (by norm_num),
    by norm_num [planFeeding], by norm_num [planFeeding]⟩

/-- Claim C5: for every der and nonnegative food input, the intake analysis
computes the dry and wet calories by the density conversions, their sum as
the total, and the difference total minus der. -/
theorem analyzeIntake_formulas (der dg dk wg wk : ℚ)
    (h1 : 0 ≤ dg) (h2 : 0 ≤ dk) (h3 : 0 ≤ wg) (h4 : 0 ≤ wk) :
    (analyzeIntake der dg dk wg wk).dry_food_kcal = dg / 1000 * dk ∧
    (analyzeIntake der dg dk wg wk).wet_food_kcal = wg / 100 * wk ∧
    (analyzeIntake der dg dk wg wk).total_intake = dg / 1000 * dk + wg / 100 * wk ∧
    (analyzeIntake der dg dk wg wk).calorie_difference =
      dg / 1000 * dk + wg / 100 * wk - der :=
  ⟨rfl, rfl, rfl, rfl⟩

/-- Witness for C5 at the spec's example: der 250, 50 g dry at 3500
kcal/1000 g and 100 g wet at 90 kcal/100 g give 175 + 90 = 265 kcal and a
difference of +15. -/
theorem analyzeIntake_formulas_witness :
    (0 : ℚ) ≤ 50 ∧ (0 : ℚ) ≤ 3500 ∧ (0 : ℚ) ≤ 100 ∧ (0 : ℚ) ≤ 90 ∧
    ((analyzeIntake (250 : ℚ) 50 3500 100 90).dry_food_kcal = 50 / 1000 * 3500 ∧
      (analyzeIntake (250 : ℚ) 50 3500 100 90).wet_food_kcal = 100 / 100 * 90 ∧
      (analyzeIntake (250 : ℚ) 50 3500 100 90).total_intake =
        50 / 1000 * 3500 + 100 / 100 * 90 ∧
      (analyzeIntake (250 : ℚ) 50 3500 100 90).calorie_difference =
        50 / 1000 * 3500 + 100 / 100 * 90 - 250) ∧
    (analyzeIntake (250 : ℚ) 50 3500 100 90).total_intake = 265 ∧
    (analyzeIntake (250 : ℚ) 50 3500 100 90).calorie_difference = 15 :=
  ⟨by norm_num, by norm_num, by norm_num, by norm_num,
    analyzeIntake_formulas 250 50 3500 100 90 (by norm_num) (by norm_num) (by norm_num)
      (by norm_num),
    by norm_num [analyzeIntake], by norm_num [analyzeIntake]⟩

/-- Claim C10: for positive der, wet percentage in [0,100] and strictly
positive densities, feeding the planned gram amounts back through the
intake analysis recovers the der exactly, so the calorie difference is 0
and the result is classified on target. -/
theorem plan_intake_roundtrip (der : ℚ) (p : ℤ) (dk wk : ℚ)
    (hder : 0 < der) (hp0 : 0 ≤ p) (hp1 : p ≤ 100) (hdk : 0 < dk) (hwk : 0 < wk) :
    (analyzeIntake der (planFeeding der p dk wk).required_dry_grams dk
        (planFeeding der p dk wk).required_wet_grams wk).total_intake = der ∧
    (analyzeIntake der (planFeeding der p dk wk).required_dry_grams dk
        (planFeeding der p dk wk).required_wet_grams wk).calorie_difference = 0 ∧
    classify ((analyzeIntake der (planFeeding der p dk wk).required_dry_grams dk
        (planFeeding der p dk wk).required_wet_grams wk).calorie_difference) =
      Classification.onTarget := by
  have key : (planFeeding der p dk wk).required_dry_grams / 1000 * dk +
      (planFeeding der p dk wk).required_wet_grams / 100 * wk = der := by
    show (if dk > 0 then der * (((100 - p : ℤ) : ℚ) / 100) / dk * 1000 else 0) / 1000 * dk +
        (if wk > 0 then der * ((p : ℚ) / 100) / wk * 100 else 0) / 100 * wk = der
    rw [if_pos hdk, if_pos hwk]
    push_cast
    field_simp
    ring
  have hdiff : (analyzeIntake der (planFeeding der p dk wk).required_dry_grams dk
      (planFeeding der p dk wk).required_wet_grams wk).calorie_difference = 0 := by
    show (planFeeding der p dk wk).required_dry_grams / 1000 * dk +
        (planFeeding der p dk wk).required_wet_grams / 100 * wk - der = 0
    rw [key, sub_self]
  refine ⟨key, hdiff, ?_⟩
  rw [hdiff]
  unfold classify
  norm_num

/-- Witness for C10 at der 300, wet percentage 50, dry density 4000, wet
density 100. -/
theorem plan_intake_roundtrip_witness :
    (0 : ℚ) < 300 ∧ (0 : ℤ) ≤ 50 ∧ (50 : ℤ) ≤ 100 ∧ (0 : ℚ) < 4000 ∧ (0 : ℚ) < 100 ∧
    ((analyzeIntake (300 : ℚ) (planFeeding (300 : ℚ) 50 4000 100).required_dry_grams 4000
        (planFeeding (300 : ℚ) 50 4000 100).required_wet_grams 100).total_intake = 300 ∧
      (analyzeIntake (300 : ℚ) (planFeeding (300 : ℚ) 50 4000 100).required_dry_grams 4000
        (planFeeding (300 : ℚ) 50 4000 100).required_wet_grams 100).calorie_difference = 0 ∧
      classify ((analyzeIntake (300 : ℚ) (planFeeding (300 : ℚ) 50 4000 100).required_dry_grams
          4000 (planFeeding (300 : ℚ) 50 4000 100).required_wet_grams
          100).calorie_difference) = Classification.onTarget) :=
  ⟨by norm_num, by norm_num, by norm_num, by norm_num, by norm_num,
    plan_intake_roundtrip 300 50 4000 100 (by norm_num) (by norm_num) (by norm_num)
      (by norm_num) (by norm_num)⟩

/-- Claim C6: whenever the tab-1 step succeeds (positive weight and age)
and stores an energy record, that record's der is exactly rer times the
multiplier and the stored water-intake recommendation is numerically equal
to the der. -/
theorem energy_result_der_composition (s : SessionState) (w : ℝ) (a : ℤ)
    (n : Bool) (b : ℤ) (p l : Bool) (e : EnergyResult)
    (hw : 0 < w) (ha : 0 < a)
    (he : (calcDerStep s w a n b p l).der_info = some e) :
    e.der = e.rer * e.multiplier ∧ e.water_intake = e.der := by
  unfold calcDerStep at he
  rw [if_neg (by omega : ¬ a ≤ 0)] at he
  rw [calculate_rer, if_neg (not_le.mpr hw)] at he
  obtain ⟨rfl⟩ : EnergyResult.mk (70 * w ^ (0.75 : ℝ))
      ((get_activity_multiplier a n b p l : ℚ) : ℝ)
      (70 * w ^ (0.75 : ℝ) * ((get_activity_multiplier a n b p l : ℚ) : ℝ))
      (70 * w ^ (0.75 : ℝ) * ((get_activity_multiplier a n b p l : ℚ) : ℝ)) = e :=
    Option.some.inj he
  exact ⟨rfl, rfl⟩

/-- Witness for C6: weight 1 kg, a 24-month neutered cat with BCS 5. -/
theorem energy_result_der_composition_witness :
    (EnergyResult.mk (70 * (1 : ℝ) ^ (0.75 : ℝ))
        ((get_activity_multiplier 24 true 5 false false : ℚ) : ℝ)
        (70 * (1 : ℝ) ^ (0.75 : ℝ) * ((get_activity_multiplier 24 true 5 false false : ℚ) : ℝ))
        (70 * (1 : ℝ) ^ (0.75 : ℝ) *
          ((get_activity_multiplier 24 true 5 false false : ℚ) : ℝ))).der =
      (EnergyResult.mk (70 * (1 : ℝ) ^ (0.75 : ℝ))
        ((get_activity_multiplier 24 true 5 false false : ℚ) : ℝ)
        (70 * (1 : ℝ) ^ (0.75 : ℝ) * ((get_activity_multiplier 24 true 5 false false : ℚ) : ℝ))
        (70 * (1 : ℝ) ^ (0.75 : ℝ) *
          ((get_activity_multiplier 24 true 5 false false : ℚ) : ℝ))).rer *
      (EnergyResult.mk (70 * (1 : ℝ) ^ (0.75 : ℝ))
        ((get_activity_multiplier 24 true 5 false false : ℚ) : ℝ)
        (70 * (1 : ℝ) ^ (0.75 : ℝ) * ((get_activity_multiplier 24 true 5 false false : ℚ) : ℝ))
        (70 * (1 : ℝ) ^ (0.75 : ℝ) *
          ((get_activity_multiplier 24 true 5 false false : ℚ) : ℝ))).multiplier ∧
    (EnergyResult.mk (70 * (1 : ℝ) ^ (0.75 : ℝ))
        ((get_activity_multiplier 24 true 5 false false : ℚ) : ℝ)
        (70 * (1 : ℝ) ^ (0.75 : ℝ) * ((get_activity_multiplier 24 true 5 false false : ℚ) : ℝ))
        (70 * (1 : ℝ) ^ (0.75 : ℝ) *
          ((get_activity_multiplier 24 true 5 false false : ℚ) : ℝ))).water_intake =
      (EnergyResult.mk (70 * (1 : ℝ) ^ (0.75 : ℝ))
        ((get_activity_multiplier 24 true 5 false false : ℚ) : ℝ)
        (70 * (1 : ℝ) ^ (0.75 : ℝ) * ((get_activity_multiplier 24 true 5 false false : ℚ) : ℝ))
        (70 * (1 : ℝ) ^ (0.75 : ℝ) *
          ((get_activity_multiplier 24 true 5 false false : ℚ) : ℝ))).der :=
  energy_result_der_composition ⟨none, none, none, none⟩ 1 24 true 5 false false _
    (by norm_num) (by norm_num)
    (by
      unfold calcDerStep
      rw [if_neg (by norm_num : ¬ (24 : ℤ) ≤ 0)]
      rw [calculate_rer, if_neg (by norm_num : ¬ (1 : ℝ) ≤ 0)])

/-- Claim C7: when no DER is in the session state, both the intake-analysis
step and the feeding-plan step short-circuit, leaving the state unchanged
and storing no intake result or plan. -/
theorem precondition_short_circuit (s : SessionState) (dg dk wg wk : ℝ)
    (p : ℤ) (dk2 wk2 : ℝ) (h : s.der = none) :
    analyzeIntakeStep s dg dk wg wk = s ∧ planFeedingStep s p dk2 wk2 = s := by
  unfold analyzeIntakeStep planFeedingStep
  rw [h]
  exact ⟨rfl, rfl⟩

/-- Witness for C7 on an empty session state. -/
theorem precondition_short_circuit_witness :
    (SessionState.mk none none none none).der = none ∧
    analyzeIntakeStep ⟨none, none, none, none⟩ 0 0 0 0 = ⟨none, none, none, none⟩ ∧
    planFeedingStep ⟨none, none, none, none⟩ 50 0 0 = ⟨none, none, none, none⟩ :=
  ⟨rfl, precondition_short_circuit ⟨none, none, none, none⟩ 0 0 0 0 50 0 0 rfl⟩

/-- Claim C8: a successful DER recomputation (positive weight and age)
clears any previously stored intake result and feeding plan while storing a
fresh energy record, and a failed recomputation (weight or age not
positive) leaves the session state untouched. -/
theorem recompute_der_invalidates (s : SessionState) (w : ℝ) (a : ℤ)
    (n : Bool) (b : ℤ) (p l : Bool) :
    (0 < w → 0 < a →
      (calcDerStep s w a n b p l).intake_analysis = none ∧
      (calcDerStep s w a n b p l).feeding_plan = none ∧
      (calcDerStep s w a n b p l).der_info.isSome = true) ∧
    (w ≤ 0 ∨ a ≤ 0 → calcDerStep s w a n b p l = s) := by
  constructor
  · intro hw ha
    unfold calcDerStep
    rw [if_neg (by omega : ¬ a ≤ 0)]
    rw [calculate_rer, if_neg (not_le.mpr hw)]
    exact ⟨rfl, rfl, rfl⟩
  · intro h
    unfold calcDerStep
    rcases h with h | h
    · by_cases ha : a ≤ 0
      · rw [if_pos ha]
      · rw [if_neg ha, calculate_rer, if_pos h]
    · rw [if_pos h]

/-- Witness for C8: a session state holding stale intake and plan results,
recomputed successfully at weight 1 and age 24, and unsuccessfully at
weight 0. -/
theorem recompute_der_invalidates_witness :
    ((calcDerStep ⟨some 1, some ⟨1, 1, 1, 1⟩, some ⟨1, 1, 1, 1⟩, some ⟨50, 1, 1⟩⟩
        1 24 true 5 false false).intake_analysis = none ∧
      (calcDerStep ⟨some 1, some ⟨1, 1, 1, 1⟩, some ⟨1, 1, 1, 1⟩, some ⟨50, 1, 1⟩⟩
        1 24 true 5 false false).feeding_plan = none ∧
      (calcDerStep ⟨some 1, some ⟨1, 1, 1, 1⟩, some ⟨1, 1, 1, 1⟩, some ⟨50, 1, 1⟩⟩
        1 24 true 5 false false).der_info.isSome = true) ∧
    calcDerStep ⟨some 1, some ⟨1, 1, 1, 1⟩, some ⟨1, 1, 1, 1⟩, some ⟨50, 1, 1⟩⟩
        0 24 true 5 false false =
      ⟨some 1, some ⟨1, 1, 1, 1⟩, some ⟨1, 1, 1, 1⟩, some ⟨50, 1, 1⟩⟩ :=
  ⟨(recompute_der_invalidates ⟨some 1, some ⟨1, 1, 1, 1⟩, some ⟨1, 1, 1, 1⟩, some ⟨50, 1, 1⟩⟩
      1 24 true 5 false false).1 (by norm_num) (by norm_num),
    (recompute_der_invalidates ⟨some 1, some ⟨1, 1, 1, 1⟩, some ⟨1, 1, 1, 1⟩, some ⟨50, 1, 1⟩⟩
      0 24 true 5 false false).2 (Or.inl le_rfl)⟩

/-- Claim C9: when the font asset fails to load, the renderer returns no
output at all; when it loads, the renderer returns the encoded report
image; and the download flow produces no artifact when the font file does
not exist, for every session state. -/
theorem report_asset_gating (hi hp fl : Bool) (s : SessionState) :
    generate_diet_report_image false hi hp = none ∧
    generate_diet_report_image true hi hp = some (reportPositions hi hp) ∧
    downloadStep false fl s = none := by
  refine ⟨rfl, rfl, ?_⟩
  unfold downloadStep
  cases h : s.der_info with
  | none => rfl
  | some e => rfl
